import Mathlib

/-!
Verification of the AyuSure drift-calibration engine
(`hardware/calibration/drift_calibration_system.py`,
class `AdvancedDriftCalibrationEngine`).

The Python module is shallowly embedded: float arithmetic is modelled by
exact rationals (`ℚ`); the square roots taken by `np.std`, `np.sqrt` and
`np.corrcoef` are modelled by `Real.sqrt` over `ℝ`; a raised `KeyError`
is modelled by an explicit error constructor; dictionaries are modelled
as association lists.  Each definition carries a comment naming the
source lines it embeds.
-/

namespace DriftCal

/-- Classical conversion of a proposition to a `Bool`; used to model
numpy comparisons over real-valued (square-root carrying) quantities. -/
noncomputable def propToBool (p : Prop) : Bool :=
  @decide p (Classical.propDecidable p)

/-- `np.mean` of a list of rationals (Lean's `x / 0 = 0` stands in for the
`nan` numpy produces on an empty list; the engine only takes means of
nonempty lists). -/
def mean (l : List ℚ) : ℚ := l.sum / l.length

/-- Population variance, i.e. the square of `np.std`:
`mean((x - mean(x))^2)`. -/
def variance (l : List ℚ) : ℚ := mean (l.map (fun x => (x - mean l) ^ 2))

/-- `np.std`: the square root of the population variance, as a real. -/
noncomputable def stdR (l : List ℚ) : ℝ := Real.sqrt ((variance l : ℚ) : ℝ)

/-- `np.arange(n)` cast to rationals, the index regressor used by the
engine for every least-squares fit. -/
def castRange (n : ℕ) : List ℚ := List.map (fun i : ℕ => (i : ℚ)) (List.range n)

/-- Denominator of the least-squares slope in `_calculate_linear_trend`
(line 133): `n * sum_x2 - sum_x * sum_x`.  The source applies no epsilon
floor to it. -/
def trend_denominator (x : List ℚ) : ℚ :=
  (x.length : ℚ) * (List.zipWith (fun a b => a * b) x x).sum - x.sum * x.sum

/-- `_calculate_linear_trend` (lines 122-134): ordinary least-squares
slope of `y` against `x`, returning `0` for fewer than two points. -/
def calculate_linear_trend (x y : List ℚ) : ℚ :=
  let n := x.length
  if n < 2 then 0
  else
    let sum_x := x.sum
    let sum_y := y.sum
    let sum_xy := (List.zipWith (fun a b => a * b) x y).sum
    ((n : ℚ) * sum_xy - sum_x * sum_y) / trend_denominator x

/-- One row of `reference_standards['electrode_standards']` (lines
19-51): reference pH-buffer responses plus per-electrode constants. -/
structure ElectrodeStandard where
  pH4 : ℚ
  pH7 : ℚ
  pH10 : ℚ
  temp_coefficient : ℚ
  aging_rate : ℚ
  noise_threshold : ℚ

/-- The `electrode_standards` table (lines 20-51), keyed by electrode
name; `none` models the `KeyError` a missing key raises in Python. -/
def electrode_standards (s : String) : Option ElectrodeStandard :=
  if s = "SS" then some ⟨1.85, 1.42, 0.95, -0.0012, 0.005, 0.002⟩
  else if s = "Cu" then some ⟨2.15, 1.68, 1.12, -0.0018, 0.008, 0.003⟩
  else if s = "Zn" then some ⟨2.45, 1.89, 1.35, -0.0015, 0.006, 0.0025⟩
  else if s = "Ag" then some ⟨2.78, 2.21, 1.58, -0.0009, 0.004, 0.002⟩
  else if s = "Pt" then some ⟨2.52, 2.03, 1.41, -0.0007, 0.003, 0.0015⟩
  else none

/-- Python truthiness of the optional `electrode_type` argument: `None`
and the empty string are falsy, any other string is truthy. -/
def truthy (o : Option String) : Bool :=
  match o with
  | none => false
  | some s => !(s == "")

/-- Kalman noise constants selected by `sensor_type`
(`kalman_filter_enhancement`, lines 301-310): `(process_noise,
measurement_noise)`. -/
def kalman_params (sensor_type : String) : ℚ × ℚ :=
  if sensor_type = "electrode" then (0.000001, 0.0001)
  else if sensor_type = "pH" then (0.00001, 0.001)
  else (0.00001, 0.001)

/-- One loop iteration of `kalman_filter_enhancement` (lines 316-328) on
the state `(x_est, p_est)`: predict (`p_pred = p_est + Q`), then update
with gain `p_pred / (p_pred + R)`. -/
def kalman_step (q r : ℚ) (s : ℚ × ℚ) (m : ℚ) : ℚ × ℚ :=
  let p_pred := s.2 + q
  let kalman_gain := p_pred / (p_pred + r)
  (s.1 + kalman_gain * (m - s.1), (1 - kalman_gain) * p_pred)

/-- The `for i in range(n)` loop of `kalman_filter_enhancement`: runs
`kalman_step` over every measurement, emitting the running estimate. -/
def kalman_loop (q r : ℚ) (s : ℚ × ℚ) : List ℚ → List ℚ
  | [] => []
  | m :: rest =>
    let s2 := kalman_step q r s m
    s2.1 :: kalman_loop q r s2 rest

/-- `kalman_filter_enhancement` (lines 293-330): series shorter than 3
are returned unchanged; otherwise the scalar filter is initialised with
`x_est = measurements[0]`, `p_est = 1.0` and the loop runs over **all**
samples, the first included. -/
def kalman_filter_enhancement (measurements : List ℚ) (sensor_type : String) : List ℚ :=
  if measurements.length < 3 then measurements
  else
    let q := (kalman_params sensor_type).1
    let r := (kalman_params sensor_type).2
    kalman_loop q r (measurements.headI, 1) measurements

/-- The Kalman recursion exactly as claim C2 words it: estimate starts
at `series[0]`, covariance at `1.0`, and predict/update run **for each
subsequent sample only**, the first sample receiving no step. -/
def kalman_spec_claim (measurements : List ℚ) (sensor_type : String) : List ℚ :=
  if measurements.length < 3 then measurements
  else
    let q := (kalman_params sensor_type).1
    let r := (kalman_params sensor_type).2
    match measurements with
    | [] => []
    | m :: rest => m :: kalman_loop q r (m, 1) rest

/-- The amended recursion: same initialisation, but predict/update also
run on the first sample (whose innovation is zero, so only the
covariance changes there) — this is what the source loop does. -/
def kalman_spec_amended (measurements : List ℚ) (sensor_type : String) : List ℚ :=
  if measurements.length < 3 then measurements
  else
    let q := (kalman_params sensor_type).1
    let r := (kalman_params sensor_type).2
    match measurements with
    | [] => []
    | m :: _ => kalman_loop q r (m, 1) measurements

/-- `apply_temperature_compensation` (lines 266-291).  Result `none`
models the `KeyError` raised when the electrode branch is taken with an
electrode type missing from the table; every other branch returns a
value. -/
def apply_temperature_compensation (reading temperature : ℚ)
    (sensor_type : String) (electrode_type : Option String) : Option ℚ :=
  let reference_temp : ℚ := 25.0
  let temp_diff := temperature - reference_temp
  if sensor_type = "electrode" ∧ truthy electrode_type = true then
    match electrode_standards (electrode_type.getD "") with
    | none => none
    | some std => some (reading - std.temp_coefficient * temp_diff)
  else if sensor_type = "pH" then
    let nernst_slope_25 : ℚ := -59.16
    let nernst_slope_t := nernst_slope_25 * (temperature + 273.15) / 298.15
    let ph_at_25 := (reading - 2.0) / (nernst_slope_25 / 1000)
    some (2.0 + ph_at_25 * (nernst_slope_t / 1000))
  else if sensor_type = "conductivity" then
    let temp_coeff : ℚ := 0.021
    some (reading / (1 + temp_coeff * temp_diff))
  else
    some (reading - (-0.001 * temp_diff))

/-- Divisor of the CUSUM standardisation (`_calculate_cusum`, line 144):
`max(std_dev, 1e-6)` where `std_dev = np.std(data[:min(10, len(data))])`.
This denominator is epsilon-floored in the source. -/
noncomputable def cusum_divisor (data : List ℚ) : ℝ :=
  max (stdR (data.take 10)) 0.000001

/-- Result record of `_calculate_cusum` (lines 159-167). -/
structure CusumStats where
  cusum_positive : List ℝ
  cusum_negative : List ℝ
  positive_alarm : Bool
  negative_alarm : Bool
  alarm_triggered : Bool
  max_cusum_pos : ℝ
  min_cusum_neg : ℝ

/-- `_calculate_cusum` (lines 136-167), at its only call site (default
`target`/`std_dev`, estimated from the first `min(10, n)` samples).  The
loop starts at index 1, leaving both sums at `0` for index 0, which the
`List.scanl` reproduces. -/
noncomputable def calculate_cusum (data : List ℚ) : CusumStats :=
  let target := mean (data.take 10)
  let deviations : List ℝ :=
    data.map (fun x => (((x - target : ℚ) : ℝ)) / cusum_divisor data)
  let cusum_pos : List ℝ :=
    match deviations with
    | [] => []
    | _ :: rest => List.scanl (fun s d => max 0 (s + d - 0.5)) 0 rest
  let cusum_neg : List ℝ :=
    match deviations with
    | [] => []
    | _ :: rest => List.scanl (fun s d => min 0 (s + d + 0.5)) 0 rest
  let pos_alarm := propToBool (∃ c ∈ cusum_pos, (4 : ℝ) < c)
  let neg_alarm := propToBool (∃ c ∈ cusum_neg, c < (-4 : ℝ))
  { cusum_positive := cusum_pos
    cusum_negative := cusum_neg
    positive_alarm := pos_alarm
    negative_alarm := neg_alarm
    alarm_triggered := pos_alarm || neg_alarm
    max_cusum_pos := cusum_pos.foldr max 0
    min_cusum_neg := cusum_neg.foldr min 0 }

/-- `np.abs(np.diff(readings))` (line 82): successive absolute
differences. -/
def moving_ranges (readings : List ℚ) : List ℚ :=
  List.zipWith (fun a b => |b - a|) readings readings.tail

/-- Result record of `_calculate_moving_range_stats` (lines 181-188). -/
structure MRStats where
  mean_moving_range : ℚ
  upper_control_limit : ℚ
  lower_control_limit : ℚ
  out_of_control_points : List ℕ
  out_of_control : Bool
  percent_out_of_control : ℚ

/-- `_calculate_moving_range_stats` (lines 169-188): Shewhart moving
range chart with the subgroup-2 constants `d3 = 0.853`, `d4 = 1.693`. -/
def calculate_moving_range_stats (mrs : List ℚ) : MRStats :=
  let mean_mr := mean mrs
  let ucl_mr := 1.693 * mean_mr
  let lcl_mr := max 0 (0.853 * mean_mr)
  let out := (mrs.enum.filter (fun p => decide (ucl_mr < p.2 ∨ p.2 < lcl_mr))).map (fun p => p.1)
  { mean_moving_range := mean_mr
    upper_control_limit := ucl_mr
    lower_control_limit := lcl_mr
    out_of_control_points := out
    out_of_control := decide (0 < out.length)
    percent_out_of_control := (out.length : ℚ) / (mrs.length : ℚ) * 100 }

/-- The run-rule loop of `_statistical_process_control` (lines 207-221).
A point strictly above the centre line bumps `consecutive_above`; the
`else` branch — taken for every point `≤` the mean, ties included —
bumps `consecutive_below`.  The loop breaks (returns `true`) as soon as
either counter reaches 9. -/
def rule2_loop (m : ℚ) : List ℚ → ℕ → ℕ → Bool
  | [], _, _ => false
  | x :: rest, ca, cb =>
    let ca2 := if m < x then ca + 1 else 0
    let cb2 := if m < x then 0 else cb + 1
    if 9 ≤ ca2 ∨ 9 ≤ cb2 then true else rule2_loop m rest ca2 cb2

/-- Result record of `_statistical_process_control` (lines 223-231). -/
structure SPCStats where
  spc_mean : ℚ
  std_deviation : ℝ
  upper_control_limit : ℝ
  lower_control_limit : ℝ
  out_of_control_points : List ℕ
  rule2_violation : Bool
  out_of_control : Bool

/-- `_statistical_process_control` (lines 190-231): 3-sigma individuals
chart (Rule 1) plus the nine-in-a-row run rule (Rule 2). -/
noncomputable def statistical_process_control (data : List ℚ) : SPCStats :=
  let mean_val := mean data
  let ucl : ℝ := (mean_val : ℝ) + 3 * stdR data
  let lcl : ℝ := (mean_val : ℝ) - 3 * stdR data
  let out := (data.enum.filter
    (fun p => propToBool (ucl < (p.2 : ℝ) ∨ (p.2 : ℝ) < lcl))).map (fun p => p.1)
  let rule2 := rule2_loop mean_val data 0 0
  { spc_mean := mean_val
    std_deviation := stdR data
    upper_control_limit := ucl
    lower_control_limit := lcl
    out_of_control_points := out
    rule2_violation := rule2
    out_of_control := decide (0 < out.length) || rule2 }

/-- Drift threshold selection in `detect_sensor_drift` (lines 88-94):
electrode with a truthy electrode type looks the aging rate up in the
table (`KeyError`, i.e. `none`, if absent) and divides by 30; `pH` uses
the fixed threshold `1.0`; anything else the default `0.01`. -/
def drift_threshold_of (sensor_type : String) (electrode_type : Option String) : Option ℚ :=
  if sensor_type = "electrode" ∧ truthy electrode_type = true then
    match electrode_standards (electrode_type.getD "") with
    | none => none
    | some std => some (std.aging_rate / 30)
  else if sensor_type = "pH" then some 1.0
  else some 0.01

/-- Least-squares slope of the readings against `np.arange(n)`
(lines 75-76). -/
def detect_slope (readings : List ℚ) : ℚ :=
  calculate_linear_trend (castRange readings.length) readings

/-- Hourly drift rate (line 97): `slope * 3600 / n` when `n > 1`. -/
def detect_drift_rate (readings : List ℚ) : ℚ :=
  if 1 < readings.length then detect_slope readings * 3600 / (readings.length : ℚ) else 0

/-- The four `drift_indicators` (lines 100-105). -/
structure Indicators where
  linear_trend : Bool
  cusum_alarm : Bool
  range_alarm : Bool
  spc_alarm : Bool

/-- The `drift_indicators` dictionary of `detect_sensor_drift`
(lines 100-105) for a given threshold. -/
noncomputable def detect_indicators (readings : List ℚ) (thr : ℚ) : Indicators :=
  { linear_trend := decide (thr < |detect_drift_rate readings|)
    cusum_alarm := (calculate_cusum readings).alarm_triggered
    range_alarm := (calculate_moving_range_stats (moving_ranges readings)).out_of_control
    spc_alarm := (statistical_process_control readings).out_of_control }

/-- `drift_confidence` (line 107): `sum(drift_indicators.values()) /
len(drift_indicators)`. -/
noncomputable def detect_confidence (readings : List ℚ) (thr : ℚ) : ℚ :=
  ((if (detect_indicators readings thr).linear_trend then (1 : ℚ) else 0) +
    (if (detect_indicators readings thr).cusum_alarm then (1 : ℚ) else 0) +
    (if (detect_indicators readings thr).range_alarm then (1 : ℚ) else 0) +
    (if (detect_indicators readings thr).spc_alarm then (1 : ℚ) else 0)) / 4

/-- `_generate_drift_recommendation` output (lines 233-264). -/
structure Recommendation where
  action : String
  urgency : String
  next_check_hours : ℚ

/-- `_generate_drift_recommendation` (lines 233-264), evaluated in the
source's precedence order. -/
def generate_drift_recommendation (drift_detected : Bool) (confidence drift_rate : ℚ) :
    Recommendation :=
  if !drift_detected then ⟨"monitor", "low", 24⟩
  else if confidence < 0.6 then ⟨"increase_monitoring", "medium", 4⟩
  else if 0.01 < |drift_rate| then ⟨"immediate_calibration", "high", 1⟩
  else ⟨"schedule_calibration", "medium", 8⟩

/-- The analysis record returned by `detect_sensor_drift`
(lines 110-120). -/
structure DriftAnalysis where
  drift_detected : Bool
  drift_confidence : ℚ
  drift_rate_per_hour : ℚ
  linear_slope : ℚ
  cusum_statistics : CusumStats
  moving_range_stats : MRStats
  spc_statistics : SPCStats
  individual_indicators : Indicators
  recommendation : Recommendation

/-- Result of `detect_sensor_drift`: the insufficient-data sentinel
(line 72), the `KeyError` escape for an unknown electrode type
(line 90), or the full analysis dictionary. -/
inductive DetectResult
  | insufficientData
  | keyError
  | analysis (a : DriftAnalysis)

/-- `detect_sensor_drift` (lines 66-120).  The statistics are pure, so
hoisting the threshold lookup (which the source performs after them)
ahead of the record construction is observationally identical. -/
noncomputable def detect_sensor_drift (sensor_readings : List ℚ)
    (sensor_type : String) (electrode_type : Option String) : DetectResult :=
  if sensor_readings.length < 10 then .insufficientData
  else
    match drift_threshold_of sensor_type electrode_type with
    | none => .keyError
    | some thr =>
      .analysis
        { drift_detected := decide ((0.4 : ℚ) ≤ detect_confidence sensor_readings thr)
          drift_confidence := detect_confidence sensor_readings thr
          drift_rate_per_hour := detect_drift_rate sensor_readings
          linear_slope := detect_slope sensor_readings
          cusum_statistics := calculate_cusum sensor_readings
          moving_range_stats := calculate_moving_range_stats (moving_ranges sensor_readings)
          spc_statistics := statistical_process_control sensor_readings
          individual_indicators := detect_indicators sensor_readings thr
          recommendation :=
            generate_drift_recommendation
              (decide ((0.4 : ℚ) ≤ detect_confidence sensor_readings thr))
              (detect_confidence sensor_readings thr)
              (detect_drift_rate sensor_readings) }

/-- Number of `true` entries among the four indicators. -/
def indicator_count (i : Indicators) : ℕ :=
  (if i.linear_trend then 1 else 0) + (if i.cusum_alarm then 1 else 0) +
    (if i.range_alarm then 1 else 0) + (if i.spc_alarm then 1 else 0)

/-- A `(sensor_type, electrode_type)` pair for which the threshold
lookup of `detect_sensor_drift` succeeds. -/
def config_present (sensor_type : String) (electrode_type : Option String) : Bool :=
  (drift_threshold_of sensor_type electrode_type).isSome

/-- The electrode scan order of `cross_validation_check` (line 337). -/
def electrodes : List String := ["SS", "Cu", "Zn", "Ag", "Pt"]

/-- Dictionary lookup on an association list (a Python `dict` access). -/
def lookupQ (m : List (String × ℚ)) (k : String) : Option ℚ :=
  (m.find? (fun p => p.1 == k)).map (fun p => p.2)

/-- Electrodes of the scan order present in the reference profile's
`electrode_response` mapping (lines 341-344).  A profile is modelled by
that mapping, the only part of the dictionary the function reads. -/
def matched_electrodes (profile : List (String × ℚ)) : List String :=
  electrodes.filter (fun e => (lookupQ profile e).isSome)

/-- The `expected_values` list built on line 343. -/
def expected_values (profile : List (String × ℚ)) : List ℚ :=
  (matched_electrodes profile).map (fun e => (lookupQ profile e).getD 0)

/-- The `actual_values` list built on line 344:
`current_readings.get(f'{electrode}_voltage', 0)` — a missing voltage
silently defaults to `0` and still counts as a matched electrode. -/
def actual_values (current profile : List (String × ℚ)) : List ℚ :=
  (matched_electrodes profile).map (fun e => (lookupQ current (e ++ "_voltage")).getD 0)

/-- Denominator of `normalized_rmse` (line 355):
`np.max(expected) - np.min(expected)`.  The source applies no epsilon
floor to it. -/
def cvc_range_denominator (profile : List (String × ℚ)) : ℚ :=
  (match expected_values profile with
    | [] => 0
    | a :: t => t.foldl max a) -
  (match expected_values profile with
    | [] => 0
    | a :: t => t.foldl min a)

/-- Pearson correlation `np.corrcoef(x, y)[0, 1]` as the covariance over
the product of standard deviations (the normalisations numpy applies to
both cancel in the ratio). -/
noncomputable def pearson (x y : List ℚ) : ℝ :=
  ((mean (List.zipWith (fun a b => (a - mean x) * (b - mean y)) x y) : ℚ) : ℝ) /
    (stdR x * stdR y)

/-- `correlation` of `cross_validation_check` (line 353). -/
noncomputable def cvc_correlation (current profile : List (String × ℚ)) : ℝ :=
  pearson (expected_values profile) (actual_values current profile)

/-- `rmse` (line 354): `np.sqrt(np.mean((expected - actual)**2))`. -/
noncomputable def cvc_rmse (current profile : List (String × ℚ)) : ℝ :=
  Real.sqrt ((mean (List.zipWith (fun e a => (e - a) ^ 2)
    (expected_values profile) (actual_values current profile)) : ℚ) : ℝ)

/-- `normalized_rmse` (line 355): the unfloored division by the expected
range. -/
noncomputable def cvc_normalized_rmse (current profile : List (String × ℚ)) : ℝ :=
  cvc_rmse current profile / ((cvc_range_denominator profile : ℚ) : ℝ)

/-- `relative_errors` (line 356): `abs((actual - expected) / expected) *
100`, the unfloored division by each expected value. -/
def cvc_relative_errors (current profile : List (String × ℚ)) : List ℚ :=
  List.zipWith (fun a e => |(a - e) / e| * 100)
    (actual_values current profile) (expected_values profile)

/-- `mean_relative_error` (line 357). -/
def cvc_mean_relative_error (current profile : List (String × ℚ)) : ℚ :=
  mean (cvc_relative_errors current profile)

/-- `composite_score` (lines 360-364): `max(0, corr) * 30 +
max(0, 1 - normalized_rmse) * 30 + max(0, 1 - mean_rel_err / 100) * 40`. -/
noncomputable def cvc_composite_score (current profile : List (String × ℚ)) : ℝ :=
  max 0 (cvc_correlation current profile) * 30 +
    max 0 (1 - cvc_normalized_rmse current profile) * 30 +
    max 0 (1 - ((cvc_mean_relative_error current profile : ℚ) : ℝ) / 100) * 40

/-- Status bucketing (lines 367-376). -/
noncomputable def cvc_status (current profile : List (String × ℚ)) : String :=
  if propToBool ((80 : ℝ) ≤ cvc_composite_score current profile) then "excellent_match"
  else if propToBool ((60 : ℝ) ≤ cvc_composite_score current profile) then "good_match"
  else if propToBool ((40 : ℝ) ≤ cvc_composite_score current profile) then "acceptable_match"
  else if propToBool ((20 : ℝ) ≤ cvc_composite_score current profile) then "poor_match"
  else "no_match"

/-- The computed branch of `cross_validation_check` (lines 378-392). -/
structure CVCData where
  validation_score : ℝ
  status : String
  herb_name : String
  correlation : ℝ
  normalized_rmse : ℝ
  mean_relative_error : ℚ
  expected : List ℚ
  actual : List ℚ
  relative_errors : List ℚ

/-- Result of `cross_validation_check`: either one of the two sentinel
dictionaries (each carrying `validation_score = 0` and its status
string), or the computed record. -/
inductive CVCResult
  | insufficient (status : String)
  | computed (d : CVCData)

/-- `cross_validation_check` (lines 332-392).  Only the reference-side
count gates the computation: `len(expected_values) < 3` (line 346). -/
noncomputable def cross_validation_check (current_readings reference_profile : List (String × ℚ))
    (herb_name : String) : CVCResult :=
  if reference_profile = [] ∨ current_readings = [] then .insufficient "insufficient_data"
  else if (expected_values reference_profile).length < 3 then
    .insufficient "insufficient_reference_data"
  else
    .computed
      { validation_score := cvc_composite_score current_readings reference_profile
        status := cvc_status current_readings reference_profile
        herb_name := herb_name
        correlation := cvc_correlation current_readings reference_profile
        normalized_rmse := cvc_normalized_rmse current_readings reference_profile
        mean_relative_error := cvc_mean_relative_error current_readings reference_profile
        expected := expected_values reference_profile
        actual := actual_values current_readings reference_profile
        relative_errors := cvc_relative_errors current_readings reference_profile }

/-- One entry of `sensor_history`: `entry.get('drift_rate', 0)` and
`entry.get('noise_level', 0)` are the only keys read, a missing key
defaulting to `0` (lines 400-401). -/
structure SensorHistoryEntry where
  drift_rate : Option ℚ
  noise_level : Option ℚ

/-- The `drift_rates` list (line 400). -/
def pm_drift_rates (history : List SensorHistoryEntry) : List ℚ :=
  history.map (fun e => e.drift_rate.getD 0)

/-- The `noise_levels` list (line 401). -/
def pm_noise_levels (history : List SensorHistoryEntry) : List ℚ :=
  history.map (fun e => e.noise_level.getD 0)

/-- `drift_trend` (line 407): least-squares slope of the drift rates
against their indices. -/
def pm_drift_trend (history : List SensorHistoryEntry) : ℚ :=
  calculate_linear_trend (castRange history.length) (pm_drift_rates history)

/-- `noise_trend` (line 408). -/
def pm_noise_trend (history : List SensorHistoryEntry) : ℚ :=
  calculate_linear_trend (castRange history.length) (pm_noise_levels history)

/-- `current_drift` (line 410): the last drift rate, `0` if none. -/
def pm_current_drift (history : List SensorHistoryEntry) : ℚ :=
  (pm_drift_rates history).getLast?.getD 0

/-- `current_noise` (line 411). -/
def pm_current_noise (history : List SensorHistoryEntry) : ℚ :=
  (pm_noise_levels history).getLast?.getD 0

/-- The epsilon-floored trend divisor of the day estimates
(lines 420 and 424): `max(trend, 1e-10)`. -/
def pm_divisor (trend : ℚ) : ℚ := max trend 0.0000000001

/-- `maintenance_predictions['drift_maintenance']` (lines 419-421):
present only when the drift trend is positive and the current drift is
below the `0.05` threshold; the estimate is floored at one day. -/
def pm_drift_prediction (history : List SensorHistoryEntry) : Option ℚ :=
  if 0 < pm_drift_trend history ∧ pm_current_drift history < 0.05 then
    some (max 1 ((0.05 - pm_current_drift history) / pm_divisor (pm_drift_trend history)))
  else none

/-- `maintenance_predictions['noise_maintenance']` (lines 423-425),
threshold `0.01`. -/
def pm_noise_prediction (history : List SensorHistoryEntry) : Option ℚ :=
  if 0 < pm_noise_trend history ∧ pm_current_noise history < 0.01 then
    some (max 1 ((0.01 - pm_current_noise history) / pm_divisor (pm_noise_trend history)))
  else none

/-- `next_maintenance_days` before the `int()` cast (lines 428-431): the
minimum of the available day estimates, or `90` when none apply.  This
is also, word for word, the value claim C9 says the function returns. -/
def pm_next_days_raw (history : List SensorHistoryEntry) : ℚ :=
  match pm_drift_prediction history, pm_noise_prediction history with
  | some a, some b => min a b
  | some a, none => a
  | none, some b => b
  | none, none => 90

/-- Python `int()` on a rational: truncation toward zero. -/
def int_trunc (q : ℚ) : ℤ := if 0 ≤ q then ⌊q⌋ else ⌈q⌉

/-- Urgency bucketing (lines 433-441), applied to the pre-`int()`
value: `(urgency, message)`. -/
def pm_urgency (q : ℚ) : String × String :=
  let d := int_trunc q
  if q < 7 then ("critical", "Immediate maintenance required within 1 week")
  else if q < 30 then ("high", s!"Maintenance recommended within {d} days")
  else ("medium", s!"Next maintenance due in {d} days")

/-- The `analysis_complete` record of `predictive_maintenance_analysis`
(lines 443-456). -/
structure PMData where
  next_maintenance_days : ℤ
  urgency : String
  message : String
  drift_rate : ℚ
  noise_level : ℚ
  drift_trend : ℚ
  noise_trend : ℚ

/-- Result of `predictive_maintenance_analysis`: the insufficient-data
sentinel or the completed analysis. -/
inductive PMResult
  | insufficient
  | complete (d : PMData)

/-- `predictive_maintenance_analysis` (lines 394-456).  The
`usage_data` argument is accepted and never read, exactly as in the
source. -/
def predictive_maintenance_analysis (sensor_history : List SensorHistoryEntry)
    (_usage_data : List ℚ) : PMResult :=
  if sensor_history.length < 20 then .insufficient
  else
    .complete
      { next_maintenance_days := int_trunc (pm_next_days_raw sensor_history)
        urgency := (pm_urgency (pm_next_days_raw sensor_history)).1
        message := (pm_urgency (pm_next_days_raw sensor_history)).2
        drift_rate := pm_current_drift sensor_history
        noise_level := pm_current_noise sensor_history
        drift_trend := pm_drift_trend sensor_history
        noise_trend := pm_noise_trend sensor_history }

/-- Sensor history used to exercise `predictive_maintenance_analysis`:
20 entries with drift rate `0.0007 * i` (strictly increasing, below the
`0.05` threshold) and no noise data. -/
def c9_history : List SensorHistoryEntry :=
  List.map (fun i : ℕ => { drift_rate := some (0.0007 * (i : ℚ)), noise_level := none })
    (List.range 20)

/-- `propToBool p` is `true` exactly when `p` holds. -/
theorem propToBool_iff (p : Prop) : propToBool p = true ↔ p := by
  simp [propToBool]

/-- `propToBool p` is `false` exactly when `p` fails. -/
theorem propToBool_eq_false_iff (p : Prop) : propToBool p = false ↔ ¬ p := by
  simp [propToBool]

/-- The Kalman loop emits one estimate per measurement. -/
theorem kalman_loop_length (q r : ℚ) :
    ∀ (l : List ℚ) (s : ℚ × ℚ), (kalman_loop q r s l).length = l.length
  | [], _ => rfl
  | _ :: rest, s => by
    simp [kalman_loop, kalman_loop_length q r rest]

/-- C10: for every series of length at least 3 and every sensor type,
the Kalman filter output has the same length as the input and its first
element is exactly the first input sample (the first step has zero
innovation). -/
theorem C10_kalman_first_sample_passthrough (series : List ℚ) (st : String)
    (h : 3 ≤ series.length) :
    (kalman_filter_enhancement series st).length = series.length ∧
      (kalman_filter_enhancement series st).head? = series.head? := by
  obtain ⟨m, rest, rfl⟩ : ∃ m rest, series = m :: rest := by
    cases series with
    | nil => simp at h
    | cons a t => exact ⟨a, t, rfl⟩
  refine ⟨?_, ?_⟩
  · rw [kalman_filter_enhancement]
    split
    · rfl
    · exact kalman_loop_length _ _ _ _
  · rw [kalman_filter_enhancement]
    split
    · rfl
    · simp [kalman_loop, kalman_step, List.headI]

/-- Witness for C10 at the concrete series `[0, 1, 0]`. -/
theorem C10_witness :
    (3 ≤ ([0, 1, 0] : List ℚ).length) ∧
      ((kalman_filter_enhancement [0, 1, 0] "pH").length = ([0, 1, 0] : List ℚ).length ∧
        (kalman_filter_enhancement [0, 1, 0] "pH").head? = ([0, 1, 0] : List ℚ).head?) :=
  ⟨by decide, C10_kalman_first_sample_passthrough [0, 1, 0] "pH" (by decide)⟩

/-- C2 counterexample: on the length-3 series `[0, 1, 0]` with sensor
type `electrode`, the source filter (which runs predict/update on the
first sample too, shrinking the covariance before the second sample)
does not return the sequence described by the claim, whose recursion
starts the second sample from covariance `1.0 + process_noise`. -/
theorem C2_counterexample :
    kalman_filter_enhancement [0, 1, 0] "electrode" ≠
      kalman_spec_claim [0, 1, 0] "electrode" := by
  norm_num [kalman_filter_enhancement, kalman_spec_claim, kalman_loop, kalman_step,
    kalman_params, List.headI]

/-- C2 amended: the filter returns exactly the running estimates of the
recursion initialised with `estimate = series[0]`, `covariance = 1.0`
in which predict-then-update runs on **every** sample, the first
included. -/
theorem C2_kalman_recursion_amended (series : List ℚ) (st : String)
    (h : 3 ≤ series.length) :
    kalman_filter_enhancement series st = kalman_spec_amended series st := by
  obtain ⟨m, rest, rfl⟩ : ∃ m rest, series = m :: rest := by
    cases series with
    | nil => simp at h
    | cons a t => exact ⟨a, t, rfl⟩
  rw [kalman_filter_enhancement, kalman_spec_amended]
  simp [List.headI]

/-- Witness for the amended C2 statement at `[0, 1, 0]`. -/
theorem C2_witness :
    (3 ≤ ([0, 1, 0] : List ℚ).length) ∧
      kalman_filter_enhancement [0, 1, 0] "electrode" =
        kalman_spec_amended [0, 1, 0] "electrode" :=
  ⟨by decide, C2_kalman_recursion_amended [0, 1, 0] "electrode" (by decide)⟩

/-- C6: at the reference temperature `25.0` every branch of
`apply_temperature_compensation` is the identity: the electrode branch
for every electrode type in the table, the conductivity branch, the pH
(Nernst) branch, and the default branch. -/
theorem C6_compensation_identity_at_25 (v : ℚ) (et : String) (st : String) :
    ((electrode_standards et).isSome = true →
      apply_temperature_compensation v 25 "electrode" (some et) = some v) ∧
    apply_temperature_compensation v 25 "conductivity" none = some v ∧
    apply_temperature_compensation v 25 "pH" none = some v ∧
    (st ≠ "electrode" → st ≠ "pH" → st ≠ "conductivity" →
      apply_temperature_compensation v 25 st none = some v) := by
  refine ⟨?_, ?_, ?_, ?_⟩
  · intro h
    by_cases het : et = ""
    · subst het
      simp [electrode_standards] at h
    · obtain ⟨std, hstd⟩ := Option.isSome_iff_exists.mp h
      have htr : truthy (some et) = true := by
        simp [truthy, het]
      rw [apply_temperature_compensation]
      rw [if_pos ⟨rfl, htr⟩]
      simp only [Option.getD_some]
      rw [hstd]
      norm_num
  · rw [apply_temperature_compensation]
    rw [if_neg (by simp [truthy]), if_neg (by decide), if_pos rfl]
    norm_num
  · rw [apply_temperature_compensation]
    rw [if_neg (by simp [truthy]), if_pos rfl]
    have hc : ((1479 : ℚ) / 25000) ≠ 0 := by norm_num
    norm_num
    field_simp
    ring
  · intro h1 h2 h3
    rw [apply_temperature_compensation]
    rw [if_neg (by simp [h1]), if_neg h2, if_neg h3]
    norm_num

/-- Witness for C6 at `v = 3`, electrode `Pt`, default sensor type
`thermal`. -/
theorem C6_witness :
    apply_temperature_compensation 3 25 "electrode" (some "Pt") = some 3 ∧
      apply_temperature_compensation 3 25 "conductivity" none = some 3 ∧
      apply_temperature_compensation 3 25 "pH" none = some 3 ∧
      apply_temperature_compensation 3 25 "thermal" none = some 3 := by
  have h := C6_compensation_identity_at_25 3 "Pt" "thermal"
  exact ⟨h.1 (by decide), h.2.1, h.2.2.1,
    h.2.2.2 (by decide) (by decide) (by decide)⟩

/-- C7 counterexample: `apply_temperature_compensation` with the sensor
type `thermal`, which is absent from the Reference Standard Table, does
not fail — it silently applies the default linear correction and
returns `2 + 0.001 * 5 = 2.005`. -/
theorem C7_counterexample :
    apply_temperature_compensation 2 30 "thermal" none = some 2.005 := by
  rw [apply_temperature_compensation]
  rw [if_neg (by simp [truthy]), if_neg (by decide), if_neg (by decide)]
  norm_num

/-- The threshold lookup of `detect_sensor_drift` fails exactly for
sensor type `electrode` with a truthy electrode type missing from the
electrode table. -/
theorem drift_threshold_of_eq_none_iff (st : String) (et : Option String) :
    drift_threshold_of st et = none ↔
      (st = "electrode" ∧ truthy et = true ∧ electrode_standards (et.getD "") = none) := by
  rw [drift_threshold_of]
  split
  · rename_i hcond
    cases hlk : electrode_standards (et.getD "") <;>
      simp [hlk, hcond.1, hcond.2]
  · rename_i hcond
    rw [not_and_or] at hcond
    split
    · rename_i hph
      constructor
      · intro h
        exact absurd h (by simp)
      · intro ⟨h1, h2, _⟩
        exact absurd (Or.resolve_left hcond (by simp [h1])) (by simp [h2])
    · constructor
      · intro h
        exact absurd h (by simp)
      · intro ⟨h1, h2, _⟩
        exact absurd (Or.resolve_left hcond (by simp [h1])) (by simp [h2])

/-- C7 amended: the only hard failure is sensor type `electrode` with a
truthy electrode type absent from the electrode table — for both
`detect_sensor_drift` (once the length gate is passed) and
`apply_temperature_compensation`.  Every other unknown sensor type
silently computes with a default (threshold `0.01`, respectively the
`-1.0e-3 * Δ` linear correction). -/
theorem C7_unknown_config_amended (readings : List ℚ) (st : String)
    (et : Option String) (v t : ℚ) :
    (detect_sensor_drift readings st et = .keyError ↔
      (¬ readings.length < 10 ∧ st = "electrode" ∧ truthy et = true ∧
        electrode_standards (et.getD "") = none)) ∧
    (apply_temperature_compensation v t st et = none ↔
      (st = "electrode" ∧ truthy et = true ∧
        electrode_standards (et.getD "") = none)) := by
  constructor
  · rw [detect_sensor_drift]
    split
    · rename_i hlen
      simp [hlen]
    · rename_i hlen
      cases hthr : drift_threshold_of st et with
      | none =>
        simp only [hlen, not_false_iff, true_and]
        simpa [hthr] using (drift_threshold_of_eq_none_iff st et).mp hthr
      | some thr =>
        have := (drift_threshold_of_eq_none_iff st et)
        rw [hthr] at this
        simp only [hlen, not_false_iff, true_and]
        constructor
        · intro h
          exact absurd h (by simp)
        · intro h
          exact absurd (this.mpr h) (by simp)
  · rw [apply_temperature_compensation]
    split
    · rename_i hcond
      cases hlk : electrode_standards (et.getD "") <;>
        simp [hlk, hcond.1, hcond.2]
    · rename_i hcond
      rw [not_and_or] at hcond
      split
      · constructor
        · intro h
          exact absurd h (by simp)
        · intro ⟨h1, h2, _⟩
          exact absurd (Or.resolve_left hcond (by simp [h1])) (by simp [h2])
      · split
        · constructor
          · intro h
            exact absurd h (by simp)
          · intro ⟨h1, h2, _⟩
            exact absurd (Or.resolve_left hcond (by simp [h1])) (by simp [h2])
        · constructor
          · intro h
            exact absurd h (by simp)
          · intro ⟨h1, h2, _⟩
            exact absurd (Or.resolve_left hcond (by simp [h1])) (by simp [h2])

/-- The confidence of line 107 is the number of true indicators over
four. -/
theorem detect_confidence_eq (readings : List ℚ) (thr : ℚ) :
    detect_confidence readings thr =
      (indicator_count (detect_indicators readings thr) : ℚ) / 4 := by
  rw [detect_confidence, indicator_count]
  rcases detect_indicators readings thr with ⟨b1, b2, b3, b4⟩
  cases b1 <;> cases b2 <;> cases b3 <;> cases b4 <;> norm_num

/-- C5: for every series of length at least 10 and every configuration
the threshold lookup accepts, `detect_sensor_drift` returns an analysis
whose `drift_confidence` is the number of true indicators divided by 4,
with `drift_detected` holding exactly when the confidence is at least
`0.4`. -/
theorem C5_confidence_invariant (readings : List ℚ) (st : String) (et : Option String)
    (hlen : 10 ≤ readings.length) (hcfg : config_present st et = true) :
    ∃ a, detect_sensor_drift readings st et = .analysis a ∧
      a.drift_confidence = (indicator_count a.individual_indicators : ℚ) / 4 ∧
      (a.drift_detected = true ↔ (0.4 : ℚ) ≤ a.drift_confidence) := by
  obtain ⟨thr, hthr⟩ := Option.isSome_iff_exists.mp hcfg
  rw [detect_sensor_drift, if_neg (by omega), hthr]
  refine ⟨_, rfl, ?_, ?_⟩
  · exact detect_confidence_eq readings thr
  · exact decide_eq_true_iff

/-- Witness for C5 on a constant length-10 series with sensor type
`pH`. -/
theorem C5_witness :
    (10 ≤ (List.replicate 10 (2 : ℚ)).length) ∧ config_present "pH" none = true ∧
      ∃ a, detect_sensor_drift (List.replicate 10 (2 : ℚ)) "pH" none = .analysis a ∧
        a.drift_confidence = (indicator_count a.individual_indicators : ℚ) / 4 ∧
        (a.drift_detected = true ↔ (0.4 : ℚ) ≤ a.drift_confidence) :=
  ⟨by decide, by decide,
    C5_confidence_invariant (List.replicate 10 (2 : ℚ)) "pH" none (by decide) (by decide)⟩

/-- C4 counterexample: a reference profile with three electrodes but a
current reading set carrying only one of their voltages is **not**
rejected — the two missing voltages default to `0` and a computed
result is returned instead of the insufficient-data sentinel. -/
theorem C4_counterexample :
    ∃ d, cross_validation_check [("SS_voltage", (1 : ℚ))]
      [("SS", (1 : ℚ)), ("Cu", 2), ("Zn", 3)] "tulsi" = .computed d := by
  rw [cross_validation_check]
  rw [if_neg (by simp), if_neg (by decide)]
  exact ⟨_, rfl⟩

/-- C4 amended: `cross_validation_check` returns a sentinel exactly when
the reference profile mapping is empty, the current reading mapping is
empty, or fewer than three of the five known electrodes appear in the
reference profile.  The current reading set is never counted: missing
voltages silently default to `0`. -/
theorem C4_sentinel_amended (r p : List (String × ℚ)) (hn : String) :
    (∃ s, cross_validation_check r p hn = .insufficient s) ↔
      (p = [] ∨ r = [] ∨ (expected_values p).length < 3) := by
  rw [cross_validation_check]
  split
  · rename_i h
    constructor
    · intro _
      rcases h with h | h
      · exact Or.inl h
      · exact Or.inr (Or.inl h)
    · intro _
      exact ⟨_, rfl⟩
  · rename_i h1
    split
    · rename_i h2
      constructor
      · intro _
        exact Or.inr (Or.inr h2)
      · intro _
        exact ⟨_, rfl⟩
    · rename_i h2
      push_neg at h1
      constructor
      · intro ⟨s, hs⟩
        simp at hs
      · intro hor
        rcases hor with h | h | h
        · exact absurd h h1.1
        · exact absurd h h1.2
        · exact absurd h h2

/-- Unfolding of the index regressor. -/
theorem castRange_succ (n : ℕ) : castRange (n + 1) = castRange n ++ [(n : ℚ)] := by
  simp [castRange, List.range_succ]

/-- Length of the index regressor. -/
theorem castRange_length (n : ℕ) : (castRange n).length = n := by
  rw [castRange, List.length_map, List.length_range]

/-- Elementwise product of a snoc with itself. -/
theorem zipWith_mul_self_append (l : List ℚ) (a : ℚ) :
    List.zipWith (fun a b => a * b) (l ++ [a]) (l ++ [a]) =
      List.zipWith (fun a b => a * b) l l ++ [a * a] := by
  induction l with
  | nil => rfl
  | cons x t ih => simp [ih]

/-- Gauss sum of the index regressor. -/
theorem castRange_sum (n : ℕ) : (castRange n).sum = (n : ℚ) * ((n : ℚ) - 1) / 2 := by
  induction n with
  | zero => simp [castRange]
  | succ k ih =>
    rw [castRange_succ, List.sum_append, ih]
    simp only [List.sum_cons, List.sum_nil, add_zero]
    push_cast
    ring

/-- Sum of squares of the index regressor. -/
theorem castRange_sum_sq (n : ℕ) :
    (List.zipWith (fun a b => a * b) (castRange n) (castRange n)).sum =
      (n : ℚ) * ((n : ℚ) - 1) * (2 * (n : ℚ) - 1) / 6 := by
  induction n with
  | zero => simp [castRange]
  | succ k ih =>
    rw [castRange_succ, zipWith_mul_self_append, List.sum_append, ih]
    simp only [List.sum_cons, List.sum_nil, add_zero]
    push_cast
    ring

/-- Closed form of the least-squares denominator on the index
regressor `0..n-1`. -/
theorem trend_denominator_castRange (n : ℕ) :
    trend_denominator (castRange n) = (n : ℚ) ^ 2 * ((n : ℚ) ^ 2 - 1) / 12 := by
  rw [trend_denominator, castRange_sum, castRange_sum_sq, castRange_length]
  ring

/-- For at least two samples the least-squares denominator on the index
regressor is strictly positive (no epsilon floor is needed there). -/
theorem trend_denominator_castRange_pos {n : ℕ} (h : 2 ≤ n) :
    0 < trend_denominator (castRange n) := by
  rw [trend_denominator_castRange]
  have h2 : (2 : ℚ) ≤ (n : ℚ) := by exact_mod_cast h
  have h4 : (0 : ℚ) < (n : ℚ) ^ 2 := by nlinarith
  have h5 : (0 : ℚ) < (n : ℚ) ^ 2 - 1 := by nlinarith
  exact div_pos (mul_pos h4 h5) (by norm_num)

/-- Scaling a list scales its sum. -/
theorem sum_map_mul (c : ℚ) (l : List ℚ) : (l.map (fun t => c * t)).sum = c * l.sum := by
  induction l with
  | nil => simp
  | cons x t ih =>
    simp [ih]
    ring

/-- Elementwise product against a scaled copy of the same list. -/
theorem zipWith_mul_map_smul (c : ℚ) (l : List ℚ) :
    List.zipWith (fun a b => a * b) l (l.map (fun t => c * t)) =
      (List.zipWith (fun a b => a * b) l l).map (fun t => c * t) := by
  induction l with
  | nil => rfl
  | cons x t ih =>
    simp [ih]
    ring

/-- The least-squares slope of exactly linear data `y = c * x` over the
index regressor is `c`. -/
theorem trend_smul (n : ℕ) (c : ℚ) (h2 : 2 ≤ n) :
    calculate_linear_trend (castRange n) ((castRange n).map (fun t => c * t)) = c := by
  have hD := trend_denominator_castRange_pos h2
  simp only [calculate_linear_trend, castRange_length]
  rw [if_neg (by omega)]
  rw [zipWith_mul_map_smul, sum_map_mul, sum_map_mul]
  rw [show ((n : ℚ) * (c * (List.zipWith (fun a b => a * b) (castRange n) (castRange n)).sum) -
      (castRange n).sum * (c * (castRange n).sum)) =
      c * trend_denominator (castRange n) from by rw [trend_denominator, castRange_length]; ring]
  exact mul_div_cancel_right₀ c hD.ne'

/-- The least-squares slope of an all-zero response is zero. -/
theorem trend_y_zero (x : List ℚ) (n : ℕ) :
    calculate_linear_trend x (List.replicate n 0) = 0 := by
  have hz : ∀ (l : List ℚ) (m : ℕ),
      (List.zipWith (fun a b => a * b) l (List.replicate m (0 : ℚ))).sum = 0 := by
    intro l
    induction l with
    | nil => intro m; simp
    | cons a t ih =>
      intro m
      cases m with
      | zero => simp
      | succ k => simp [List.replicate_succ, ih k]
  simp only [calculate_linear_trend]
  split
  · rfl
  · simp [hz, List.sum_replicate]

/-- The drift-side day estimate, when present, is at least one day. -/
theorem pm_drift_prediction_ge_one {h : List SensorHistoryEntry} {a : ℚ}
    (hd : pm_drift_prediction h = some a) : 1 ≤ a := by
  rw [pm_drift_prediction] at hd
  split at hd
  · exact (Option.some_inj.mp hd) ▸ le_max_left 1 _
  · exact absurd hd (by simp)

/-- The noise-side day estimate, when present, is at least one day. -/
theorem pm_noise_prediction_ge_one {h : List SensorHistoryEntry} {a : ℚ}
    (hd : pm_noise_prediction h = some a) : 1 ≤ a := by
  rw [pm_noise_prediction] at hd
  split at hd
  · exact (Option.some_inj.mp hd) ▸ le_max_left 1 _
  · exact absurd hd (by simp)

/-- The pre-truncation day count is at least one. -/
theorem pm_next_days_raw_ge_one (h : List SensorHistoryEntry) :
    1 ≤ pm_next_days_raw h := by
  rw [pm_next_days_raw]
  cases hd : pm_drift_prediction h with
  | none =>
    cases hn : pm_noise_prediction h with
    | none => norm_num
    | some b => exact pm_noise_prediction_ge_one hn
  | some a =>
    cases hn : pm_noise_prediction h with
    | none => exact pm_drift_prediction_ge_one hd
    | some b => exact le_min (pm_drift_prediction_ge_one hd) (pm_noise_prediction_ge_one hn)

/-- C9 counterexample: on a 20-entry history whose drift rate rises by
`0.0007` per entry, the minimum day estimate is `367/7 ≈ 52.43`, but the
returned `next_maintenance_days` is the `int()`-truncated `52`, so it is
not equal to the minimum of the per-metric day estimates. -/
theorem C9_counterexample :
    ∃ d, predictive_maintenance_analysis c9_history [] = .complete d ∧
      pm_next_days_raw c9_history = 367 / 7 ∧
      d.next_maintenance_days = 52 ∧
      ((d.next_maintenance_days : ℚ) ≠ pm_next_days_raw c9_history) := by
  have hlen : c9_history.length = 20 := by
    simp [c9_history]
  have hdr : pm_drift_rates c9_history = (castRange 20).map (fun t => 0.0007 * t) := by
    simp [pm_drift_rates, c9_history, castRange, List.map_map, Function.comp]
  have htrend : pm_drift_trend c9_history = 0.0007 := by
    rw [pm_drift_trend, hlen, hdr]
    exact trend_smul 20 0.0007 (by norm_num)
  have hcur0 : pm_current_drift c9_history = 0.0007 * ((19 : ℕ) : ℚ) := rfl
  have hcur : pm_current_drift c9_history = 0.0133 := by
    rw [hcur0]
    norm_num
  have hnoise : pm_noise_levels c9_history = List.replicate 20 0 := rfl
  have hntrend : pm_noise_trend c9_history = 0 := by
    rw [pm_noise_trend, hlen, hnoise]
    exact trend_y_zero _ 20
  have hdp : pm_drift_prediction c9_history = some (367 / 7) := by
    rw [pm_drift_prediction, htrend, hcur, if_pos (by norm_num)]
    rw [show pm_divisor (0.0007 : ℚ) = 0.0007 from max_eq_left (by norm_num)]
    rw [show ((0.05 : ℚ) - 0.0133) / (0.0007 : ℚ) = 367 / 7 from by norm_num]
    rw [max_eq_right (by norm_num : (1 : ℚ) ≤ 367 / 7)]
  have hnp : pm_noise_prediction c9_history = none := by
    rw [pm_noise_prediction, hntrend, if_neg (by norm_num)]
  have hraw : pm_next_days_raw c9_history = 367 / 7 := by
    rw [pm_next_days_raw, hdp, hnp]
  have hint : int_trunc ((367 : ℚ) / 7) = 52 := by
    rw [int_trunc, if_pos (by norm_num)]
    exact Int.floor_eq_iff.mpr ⟨by norm_num, by norm_num⟩
  rw [predictive_maintenance_analysis, if_neg (by rw [hlen]; norm_num)]
  refine ⟨_, rfl, hraw, ?_, ?_⟩
  · show int_trunc (pm_next_days_raw c9_history) = 52
    rw [hraw]
    exact hint
  · show ((int_trunc (pm_next_days_raw c9_history) : ℤ) : ℚ) ≠ pm_next_days_raw c9_history
    rw [hraw, hint]
    norm_num

/-- C9 amended: a history shorter than 20 entries (19 included) yields
the insufficient-data sentinel; otherwise the analysis completes and
`next_maintenance_days` is the **`int()`-truncation** of the minimum of
the applicable per-metric day estimates (each floored at one day, `90`
when none apply), hence always at least one day — positive and finite in
particular. -/
theorem C9_forecast_amended (history : List SensorHistoryEntry) (u : List ℚ) :
    (predictive_maintenance_analysis history u = .insufficient ↔ history.length < 20) ∧
      (20 ≤ history.length →
        ∃ d, predictive_maintenance_analysis history u = .complete d ∧
          d.next_maintenance_days = int_trunc (pm_next_days_raw history) ∧
          1 ≤ d.next_maintenance_days) := by
  constructor
  · rw [predictive_maintenance_analysis]
    split
    · rename_i hl
      simp [hl]
    · rename_i hl
      constructor
      · intro hc
        exact absurd hc (by simp)
      · intro hc
        exact absurd hc hl
  · intro h20
    rw [predictive_maintenance_analysis, if_neg (by omega)]
    refine ⟨_, rfl, rfl, ?_⟩
    show 1 ≤ int_trunc (pm_next_days_raw history)
    have h1 := pm_next_days_raw_ge_one history
    rw [int_trunc, if_pos (by linarith)]
    exact Int.le_floor.mpr (by exact_mod_cast h1)

/-- Witness for the amended C9 statement on the concrete 20-entry
history. -/
theorem C9_witness :
    (20 ≤ c9_history.length) ∧
      ∃ d, predictive_maintenance_analysis c9_history [] = .complete d ∧
        d.next_maintenance_days = int_trunc (pm_next_days_raw c9_history) ∧
        1 ≤ d.next_maintenance_days :=
  ⟨by simp [c9_history],
    (C9_forecast_amended c9_history []).2 (by simp [c9_history])⟩

/-- C3 counterexample: with a reference profile whose three expected
values are all `1.5`, `cross_validation_check` reaches its computed
branch, and the denominator `np.max(expected) - np.min(expected)` of
`normalized_rmse` is exactly `0` — it carries no epsilon floor, so a
division by zero occurs on this input. -/
theorem C3_counterexample :
    3 ≤ (expected_values [("SS", (1.5 : ℚ)), ("Cu", 1.5), ("Zn", 1.5)]).length ∧
      cvc_range_denominator [("SS", (1.5 : ℚ)), ("Cu", 1.5), ("Zn", 1.5)] = 0 ∧
      ∃ d, cross_validation_check [("SS_voltage", (1.5 : ℚ))]
        [("SS", (1.5 : ℚ)), ("Cu", 1.5), ("Zn", 1.5)] "tulsi" = .computed d := by
  have he : expected_values [("SS", (1.5 : ℚ)), ("Cu", 1.5), ("Zn", 1.5)] =
      [1.5, 1.5, 1.5] := rfl
  refine ⟨by rw [he]; norm_num, ?_, ?_⟩
  · rw [cvc_range_denominator, he]
    norm_num [List.foldl, max_self, min_self]
  · rw [cross_validation_check, if_neg (by simp), if_neg (by rw [he]; norm_num)]
    exact ⟨_, rfl⟩

/-- C3 amended: the CUSUM standardisation divisor and the
maintenance-day trend divisors are indeed epsilon-floored (at `1e-6`
and `1e-10`), and the least-squares denominator — though unfloored — is
strictly positive for every index regressor of length at least 2; but
the two denominators of `cross_validation_check` (the expected range
and the expected values themselves) carry no floor and can be zero, as
the counterexample shows. -/
theorem C3_division_guards_amended :
    (∀ data : List ℚ, (0.000001 : ℝ) ≤ cusum_divisor data) ∧
      (∀ n : ℕ, 2 ≤ n → 0 < trend_denominator (castRange n)) ∧
      (∀ t : ℚ, (0.0000000001 : ℚ) ≤ pm_divisor t) := by
  refine ⟨?_, ?_, ?_⟩
  · intro data
    exact le_max_right _ _
  · intro n hn
    exact trend_denominator_castRange_pos hn
  · intro t
    exact le_max_right _ _

/-- Witness for the amended C3 statement at concrete inputs. -/
theorem C3_witness :
    ((0.000001 : ℝ) ≤ cusum_divisor []) ∧ (0 < trend_denominator (castRange 2)) ∧
      ((0.0000000001 : ℚ) ≤ pm_divisor 0) :=
  ⟨C3_division_guards_amended.1 [],
    C3_division_guards_amended.2.1 2 (by norm_num),
    C3_division_guards_amended.2.2 0⟩

/-- Inductive step of the Cauchy-Schwarz inequality for list sums. -/
theorem cs_step (a b s A B : ℚ) (hA : 0 ≤ A) (hB : 0 ≤ B) (hs : s ^ 2 ≤ A * B) :
    (a * b + s) ^ 2 ≤ (a ^ 2 + A) * (b ^ 2 + B) := by
  rcases eq_or_lt_of_le hB with hB0 | hBpos
  · have hs0 : s = 0 := by nlinarith [sq_nonneg s]
    subst hs0
    nlinarith [mul_nonneg hA (sq_nonneg b)]
  · nlinarith [sq_nonneg (a * B - b * s), mul_nonneg (sq_nonneg b) (sub_nonneg.mpr hs),
      mul_nonneg hBpos.le (sub_nonneg.mpr hs)]

/-- A sum of squares is nonnegative. -/
theorem sumsq_nonneg (l : List ℚ) : 0 ≤ (l.map (fun t => t ^ 2)).sum := by
  apply List.sum_nonneg
  intro a ha
  obtain ⟨b, _, rfl⟩ := List.mem_map.mp ha
  positivity

/-- Cauchy-Schwarz inequality for the elementwise product of two
lists. -/
theorem list_cs : ∀ (l1 l2 : List ℚ),
    ((List.zipWith (fun a b => a * b) l1 l2).sum) ^ 2 ≤
      ((l1.map (fun t => t ^ 2)).sum) * ((l2.map (fun t => t ^ 2)).sum)
  | [], l2 => by
    simp
  | a :: t1, [] => by
    simp
  | a :: t1, b :: t2 => by
    simp only [List.zipWith_cons_cons, List.sum_cons, List.map_cons]
    exact cs_step a b _ _ _ (sumsq_nonneg t1) (sumsq_nonneg t2) (list_cs t1 t2)

/-- Shifted elementwise product as a product of shifted lists. -/
theorem zipWith_sub_mul (mx my : ℚ) : ∀ (x y : List ℚ),
    List.zipWith (fun a b => (a - mx) * (b - my)) x y =
      List.zipWith (fun a b => a * b)
        (x.map (fun t => t - mx)) (y.map (fun t => t - my))
  | [], l => by simp
  | a :: t1, [] => by simp
  | a :: t1, b :: t2 => by
    simp only [List.zipWith_cons_cons, List.map_cons]
    rw [zipWith_sub_mul mx my t1 t2]

/-- The modelled Pearson correlation never exceeds `1` for equal-length
vectors (Cauchy-Schwarz; the degenerate zero-variance cases land on
Lean's `x / 0 = 0` junk value, standing in for numpy's `nan`, and
satisfy the bound as well). -/
theorem pearson_le_one (x y : List ℚ) (hlen : x.length = y.length) :
    pearson x y ≤ 1 := by
  by_cases hx : x = []
  · subst hx
    simp [pearson, mean]
  · have hn : 0 < x.length := List.length_pos.mpr hx
    rw [pearson]
    set mx := mean x with hmx
    set my := mean y with hmy
    set l1 := x.map (fun t => t - mx) with hl1
    set l2 := y.map (fun t => t - my) with hl2
    set S := (List.zipWith (fun a b => a * b) l1 l2).sum with hS
    set A := (l1.map (fun t => t ^ 2)).sum with hA
    set B := (l2.map (fun t => t ^ 2)).sum with hB
    have hAnn : 0 ≤ A := sumsq_nonneg l1
    have hBnn : 0 ≤ B := sumsq_nonneg l2
    have hcs : S ^ 2 ≤ A * B := list_cs l1 l2
    have hlen1 : l1.length = x.length := by
      rw [hl1, List.length_map]
    have hlen2 : l2.length = y.length := by
      rw [hl2, List.length_map]
    have hcov : mean (List.zipWith (fun a b => (a - mx) * (b - my)) x y) =
        S / (x.length : ℚ) := by
      rw [mean, zipWith_sub_mul, ← hl1, ← hl2, ← hS, List.length_zipWith,
        hlen1, hlen2, ← hlen, min_self]
    have hvx : variance x = A / (x.length : ℚ) := by
      rw [variance, mean]
      congr 1
      · rw [hA, hl1, List.map_map]
        rfl
      · rw [List.length_map]
    have hvy : variance y = B / (x.length : ℚ) := by
      rw [variance, mean]
      congr 1
      · rw [hB, hl2, List.map_map]
        rfl
      · rw [List.length_map, hlen]
    rw [hcov, stdR, stdR, hvx, hvy]
    have hnR : (0 : ℝ) < ((x.length : ℚ) : ℝ) := by
      exact_mod_cast hn
    have hc1 : ((S / (x.length : ℚ) : ℚ) : ℝ) = (S : ℝ) / ((x.length : ℚ) : ℝ) := by
      push_cast
      ring
    have hc2 : ((A / (x.length : ℚ) : ℚ) : ℝ) = (A : ℝ) / ((x.length : ℚ) : ℝ) := by
      push_cast
      ring
    have hc3 : ((B / (x.length : ℚ) : ℚ) : ℝ) = (B : ℝ) / ((x.length : ℚ) : ℝ) := by
      push_cast
      ring
    rw [hc1, hc2, hc3]
    rw [Real.sqrt_div (by exact_mod_cast hAnn), Real.sqrt_div (by exact_mod_cast hBnn)]
    rw [div_mul_div_comm, Real.mul_self_sqrt hnR.le]
    have hDnn : (0 : ℝ) ≤ Real.sqrt (A : ℝ) * Real.sqrt (B : ℝ) :=
      mul_nonneg (Real.sqrt_nonneg _) (Real.sqrt_nonneg _)
    rcases eq_or_lt_of_le hDnn with hD0 | hDpos
    · rw [← hD0]
      simp
    · have hne1 : ((x.length : ℚ) : ℝ) ≠ 0 := hnR.ne'
      have hne2 : Real.sqrt (A : ℝ) * Real.sqrt (B : ℝ) ≠ 0 := hDpos.ne'
      have hsimp : (S : ℝ) / ((x.length : ℚ) : ℝ) /
          (Real.sqrt (A : ℝ) * Real.sqrt (B : ℝ) / ((x.length : ℚ) : ℝ)) =
          (S : ℝ) / (Real.sqrt (A : ℝ) * Real.sqrt (B : ℝ)) := by
        field_simp
      rw [hsimp, div_le_one hDpos]
      calc (S : ℝ) ≤ |(S : ℝ)| := le_abs_self _
        _ = Real.sqrt ((S : ℝ) ^ 2) := (Real.sqrt_sq_eq_abs _).symm
        _ ≤ Real.sqrt ((A : ℝ) * (B : ℝ)) := Real.sqrt_le_sqrt (by exact_mod_cast hcs)
        _ = Real.sqrt (A : ℝ) * Real.sqrt (B : ℝ) :=
          Real.sqrt_mul (by exact_mod_cast hAnn) _

/-- Expected and actual vectors are built over the same matched
electrodes, hence have equal length. -/
theorem expected_actual_length (c p : List (String × ℚ)) :
    (expected_values p).length = (actual_values c p).length := by
  rw [expected_values, actual_values, List.length_map, List.length_map]

/-- A left fold by `max` dominates its seed. -/
theorem foldl_max_ge (l : List ℚ) : ∀ a : ℚ, a ≤ l.foldl max a := by
  induction l with
  | nil => intro a; exact le_refl a
  | cons b t ih =>
    intro a
    exact (le_max_left a b).trans (ih (max a b))

/-- A left fold by `min` is dominated by its seed. -/
theorem foldl_min_le (l : List ℚ) : ∀ a : ℚ, l.foldl min a ≤ a := by
  induction l with
  | nil => intro a; exact le_refl a
  | cons b t ih =>
    intro a
    exact (ih (min a b)).trans (min_le_left a b)

/-- For a nonempty expected vector the range denominator is
nonnegative. -/
theorem cvc_range_denominator_nonneg (p : List (String × ℚ))
    (h : expected_values p ≠ []) : 0 ≤ cvc_range_denominator p := by
  rw [cvc_range_denominator]
  cases hev : expected_values p with
  | nil => exact absurd hev h
  | cons a t =>
    simp only
    exact sub_nonneg.mpr ((foldl_min_le t a).trans (foldl_max_ge t a))

/-- Every element produced by a pointwise-nonnegative `zipWith` is
nonnegative. -/
theorem zipWith_mem_nonneg {f : ℚ → ℚ → ℚ} (hf : ∀ a b, 0 ≤ f a b) :
    ∀ (l1 l2 : List ℚ), ∀ q ∈ List.zipWith f l1 l2, 0 ≤ q
  | [], _, q, hq => by simp at hq
  | _ :: _, [], q, hq => by simp at hq
  | a :: t1, b :: t2, q, hq => by
    rcases List.mem_cons.mp hq with h | h
    · exact h ▸ hf a b
    · exact zipWith_mem_nonneg hf t1 t2 q h

/-- The mean absolute percentage error is nonnegative. -/
theorem cvc_mre_nonneg (c p : List (String × ℚ)) :
    0 ≤ cvc_mean_relative_error c p := by
  rw [cvc_mean_relative_error, mean]
  apply div_nonneg
  · apply List.sum_nonneg
    intro q hq
    rw [cvc_relative_errors] at hq
    exact zipWith_mem_nonneg
      (fun a b => mul_nonneg (abs_nonneg _) (by norm_num)) _ _ q hq
  · positivity

/-- The normalized RMSE is nonnegative whenever the expected vector is
nonempty (with a zero range, Lean's junk division yields `0`). -/
theorem cvc_nrmse_nonneg (c p : List (String × ℚ)) (h : expected_values p ≠ []) :
    0 ≤ cvc_normalized_rmse c p :=
  div_nonneg (Real.sqrt_nonneg _)
    (by exact_mod_cast cvc_range_denominator_nonneg p h)

/-- The correlation never exceeds one. -/
theorem cvc_correlation_le_one (c p : List (String × ℚ)) :
    cvc_correlation c p ≤ 1 :=
  pearson_le_one _ _ (expected_actual_length c p)

/-- The composite score is nonnegative. -/
theorem cvc_score_nonneg (c p : List (String × ℚ)) :
    0 ≤ cvc_composite_score c p := by
  rw [cvc_composite_score]
  have h1 : (0 : ℝ) ≤ max 0 (cvc_correlation c p) := le_max_left 0 _
  have h2 : (0 : ℝ) ≤ max 0 (1 - cvc_normalized_rmse c p) := le_max_left 0 _
  have h3 : (0 : ℝ) ≤ max 0 (1 - ((cvc_mean_relative_error c p : ℚ) : ℝ) / 100) :=
    le_max_left 0 _
  linarith

/-- The composite score never exceeds 100. -/
theorem cvc_score_le_100 (c p : List (String × ℚ)) (h : expected_values p ≠ []) :
    cvc_composite_score c p ≤ 100 := by
  rw [cvc_composite_score]
  have h1 : max 0 (cvc_correlation c p) ≤ 1 :=
    max_le (by norm_num) (cvc_correlation_le_one c p)
  have h2 : max 0 (1 - cvc_normalized_rmse c p) ≤ 1 :=
    max_le (by norm_num) (by linarith [cvc_nrmse_nonneg c p h])
  have h3 : max 0 (1 - ((cvc_mean_relative_error c p : ℚ) : ℝ) / 100) ≤ 1 := by
    refine max_le (by norm_num) ?_
    have hm : (0 : ℝ) ≤ ((cvc_mean_relative_error c p : ℚ) : ℝ) := by
      exact_mod_cast cvc_mre_nonneg c p
    linarith
  have g1 : (0 : ℝ) ≤ max 0 (cvc_correlation c p) := le_max_left 0 _
  have g2 : (0 : ℝ) ≤ max 0 (1 - cvc_normalized_rmse c p) := le_max_left 0 _
  have g3 : (0 : ℝ) ≤ max 0 (1 - ((cvc_mean_relative_error c p : ℚ) : ℝ) / 100) :=
    le_max_left 0 _
  linarith

/-- The status string is determined by the score thresholds
80/60/40/20, read as the source's else-if chain. -/
theorem cvc_status_buckets (c p : List (String × ℚ)) :
    (cvc_status c p = "excellent_match" ↔ 80 ≤ cvc_composite_score c p) ∧
      (cvc_status c p = "good_match" ↔
        60 ≤ cvc_composite_score c p ∧ cvc_composite_score c p < 80) ∧
      (cvc_status c p = "acceptable_match" ↔
        40 ≤ cvc_composite_score c p ∧ cvc_composite_score c p < 60) ∧
      (cvc_status c p = "poor_match" ↔
        20 ≤ cvc_composite_score c p ∧ cvc_composite_score c p < 40) ∧
      (cvc_status c p = "no_match" ↔ cvc_composite_score c p < 20) := by
  rw [cvc_status]
  set s := cvc_composite_score c p with hs
  by_cases h80 : (80 : ℝ) ≤ s
  · rw [if_pos ((propToBool_iff _).mpr h80)]
    have hn80 := not_lt.mpr h80
    refine ⟨⟨fun _ => h80, fun _ => rfl⟩, ?_, ?_, ?_, ?_⟩
    · exact ⟨fun hh => absurd hh (by decide), fun hh => absurd hh.2 hn80⟩
    · exact ⟨fun hh => absurd hh (by decide),
        fun hh => absurd (hh.2.trans_le (by norm_num)) hn80⟩
    · exact ⟨fun hh => absurd hh (by decide),
        fun hh => absurd (hh.2.trans_le (by norm_num)) hn80⟩
    · exact ⟨fun hh => absurd hh (by decide),
        fun hh => absurd (hh.trans_le (by norm_num)) hn80⟩
  · rw [if_neg (fun hc => h80 ((propToBool_iff _).mp hc))]
    by_cases h60 : (60 : ℝ) ≤ s
    · rw [if_pos ((propToBool_iff _).mpr h60)]
      have hn60 := not_lt.mpr h60
      refine ⟨⟨fun hh => absurd hh (by decide), fun hh => absurd hh h80⟩,
        ⟨fun _ => ⟨h60, not_le.mp h80⟩, fun _ => rfl⟩, ?_, ?_, ?_⟩
      · exact ⟨fun hh => absurd hh (by decide), fun hh => absurd hh.2 hn60⟩
      · exact ⟨fun hh => absurd hh (by decide),
          fun hh => absurd (hh.2.trans_le (by norm_num)) hn60⟩
      · exact ⟨fun hh => absurd hh (by decide),
          fun hh => absurd (hh.trans_le (by norm_num)) hn60⟩
    · rw [if_neg (fun hc => h60 ((propToBool_iff _).mp hc))]
      by_cases h40 : (40 : ℝ) ≤ s
      · rw [if_pos ((propToBool_iff _).mpr h40)]
        have hn40 := not_lt.mpr h40
        refine ⟨⟨fun hh => absurd hh (by decide), fun hh => absurd hh h80⟩,
          ⟨fun hh => absurd hh (by decide), fun hh => absurd hh.1 h60⟩,
          ⟨fun _ => ⟨h40, not_le.mp h60⟩, fun _ => rfl⟩, ?_, ?_⟩
        · exact ⟨fun hh => absurd hh (by decide), fun hh => absurd hh.2 hn40⟩
        · exact ⟨fun hh => absurd hh (by decide),
            fun hh => absurd (hh.trans_le (by norm_num)) hn40⟩
      · rw [if_neg (fun hc => h40 ((propToBool_iff _).mp hc))]
        by_cases h20 : (20 : ℝ) ≤ s
        · rw [if_pos ((propToBool_iff _).mpr h20)]
          have hn20 := not_lt.mpr h20
          refine ⟨⟨fun hh => absurd hh (by decide), fun hh => absurd hh h80⟩,
            ⟨fun hh => absurd hh (by decide), fun hh => absurd hh.1 h60⟩,
            ⟨fun hh => absurd hh (by decide), fun hh => absurd hh.1 h40⟩,
            ⟨fun _ => ⟨h20, not_le.mp h40⟩, fun _ => rfl⟩, ?_⟩
          exact ⟨fun hh => absurd hh (by decide), fun hh => absurd hh hn20⟩
        · rw [if_neg (fun hc => h20 ((propToBool_iff _).mp hc))]
          exact ⟨⟨fun hh => absurd hh (by decide), fun hh => absurd hh h80⟩,
            ⟨fun hh => absurd hh (by decide), fun hh => absurd hh.1 h60⟩,
            ⟨fun hh => absurd hh (by decide), fun hh => absurd hh.1 h40⟩,
            ⟨fun hh => absurd hh (by decide), fun hh => absurd hh.1 h20⟩,
            ⟨fun _ => not_le.mp h20, fun _ => rfl⟩⟩

/-- C8: every computed `cross_validation_check` result has
`validation_score = 30*max(0,corr) + 30*max(0,1-normalized_rmse) +
40*max(0,1-mean_relative_error/100)`, lies in `[0, 100]`, and its status
is bucketed at the thresholds 80/60/40/20. -/
theorem C8_validation_score (r p : List (String × ℚ)) (hn : String) (d : CVCData)
    (h : cross_validation_check r p hn = .computed d) :
    d.validation_score = 30 * max 0 d.correlation + 30 * max 0 (1 - d.normalized_rmse) +
        40 * max 0 (1 - ((d.mean_relative_error : ℚ) : ℝ) / 100) ∧
      (0 ≤ d.validation_score ∧ d.validation_score ≤ 100) ∧
      (d.status = "excellent_match" ↔ 80 ≤ d.validation_score) ∧
      (d.status = "good_match" ↔ 60 ≤ d.validation_score ∧ d.validation_score < 80) ∧
      (d.status = "acceptable_match" ↔ 40 ≤ d.validation_score ∧ d.validation_score < 60) ∧
      (d.status = "poor_match" ↔ 20 ≤ d.validation_score ∧ d.validation_score < 40) ∧
      (d.status = "no_match" ↔ d.validation_score < 20) := by
  rw [cross_validation_check] at h
  split at h
  · exact absurd h (by simp)
  · split at h
    · exact absurd h (by simp)
    · rename_i h1 h2
      injection h with hd
      subst hd
      have hne : expected_values p ≠ [] := by
        intro he
        rw [he] at h2
        simp at h2
      have hb := cvc_status_buckets r p
      exact ⟨by show cvc_composite_score r p = _; rw [cvc_composite_score]; ring,
        ⟨cvc_score_nonneg r p, cvc_score_le_100 r p hne⟩,
        hb.1, hb.2.1, hb.2.2.1, hb.2.2.2.1, hb.2.2.2.2⟩

/-- Witness for C8 on a concrete three-electrode profile and a matching
reading set. -/
theorem C8_witness :
    ∃ d, cross_validation_check
        [("SS_voltage", (1 : ℚ)), ("Cu_voltage", 2), ("Zn_voltage", 3)]
        [("SS", (1 : ℚ)), ("Cu", 2), ("Zn", 3)] "tulsi" = .computed d ∧
      0 ≤ d.validation_score ∧ d.validation_score ≤ 100 := by
  have he : expected_values [("SS", (1 : ℚ)), ("Cu", 2), ("Zn", 3)] = [1, 2, 3] := rfl
  have hcomp : ∃ d, cross_validation_check
      [("SS_voltage", (1 : ℚ)), ("Cu_voltage", 2), ("Zn_voltage", 3)]
      [("SS", (1 : ℚ)), ("Cu", 2), ("Zn", 3)] "tulsi" = .computed d := by
    rw [cross_validation_check, if_neg (by simp), if_neg (by rw [he]; norm_num)]
    exact ⟨_, rfl⟩
  obtain ⟨d, hd⟩ := hcomp
  exact ⟨d, hd, (C8_validation_score _ _ _ _ hd).2.1⟩

/-- Elementwise absolute differences of two constant lists vanish. -/
theorem zipWith_abs_one : ∀ (j k : ℕ),
    List.zipWith (fun a b => |b - a|) (List.replicate j (1 : ℚ)) (List.replicate k (1 : ℚ)) =
      List.replicate (min j k) 0
  | 0, k => by simp
  | j + 1, 0 => by simp
  | j + 1, k + 1 => by
    rw [show List.replicate (j + 1) (1 : ℚ) = 1 :: List.replicate j 1 from rfl,
      show List.replicate (k + 1) (1 : ℚ) = 1 :: List.replicate k 1 from rfl,
      List.zipWith_cons_cons, zipWith_abs_one j k, Nat.succ_min_succ,
      show List.replicate (min j k + 1) (0 : ℚ) = 0 :: List.replicate (min j k) 0 from rfl]
    norm_num

/-- The positive CUSUM scan of an all-zero deviation list stays at
zero. -/
theorem scanl_cusum_pos_zero : ∀ k : ℕ,
    List.scanl (fun s d => max 0 (s + d - 0.5)) (0 : ℝ) (List.replicate k 0) =
      List.replicate (k + 1) 0
  | 0 => by simp
  | k + 1 => by
    rw [show List.replicate (k + 1) (0 : ℝ) = 0 :: List.replicate k 0 from rfl,
      List.scanl_cons]
    rw [show max (0 : ℝ) (0 + 0 - 0.5) = 0 from by rw [max_eq_left (by norm_num)]]
    rw [scanl_cusum_pos_zero k]
    rfl

/-- The negative CUSUM scan of an all-zero deviation list stays at
zero. -/
theorem scanl_cusum_neg_zero : ∀ k : ℕ,
    List.scanl (fun s d => min 0 (s + d + 0.5)) (0 : ℝ) (List.replicate k 0) =
      List.replicate (k + 1) 0
  | 0 => by simp
  | k + 1 => by
    rw [show List.replicate (k + 1) (0 : ℝ) = 0 :: List.replicate k 0 from rfl,
      List.scanl_cons]
    rw [show min (0 : ℝ) (0 + 0 + 0.5) = 0 from by rw [min_eq_left (by norm_num)]]
    rw [scanl_cusum_neg_zero k]
    rfl

/-- The first ten samples of the constant series. -/
theorem c1_take : (List.replicate 10 (1 : ℚ)).take 10 = List.replicate 10 (1 : ℚ) := by
  rw [List.take_replicate, show (10 : ℕ) ⊓ 10 = 10 from by omega]

/-- Mean of the constant series. -/
theorem c1_mean : mean (List.replicate 10 (1 : ℚ)) = 1 := by
  rw [mean, List.sum_replicate, List.length_replicate]
  norm_num

/-- Multiplying elementwise by a constant-one list is the identity. -/
theorem zipWith_mul_one (l : List ℚ) :
    List.zipWith (fun a b => a * b) l (List.replicate l.length 1) = l := by
  induction l with
  | nil => rfl
  | cons a t ih =>
    simp only [List.length_cons, List.replicate_succ, List.zipWith_cons_cons, mul_one, ih]

/-- The slope of the constant series is zero. -/
theorem c1_slope : detect_slope (List.replicate 10 (1 : ℚ)) = 0 := by
  rw [detect_slope, show (List.replicate 10 (1 : ℚ)).length = 10 from by simp]
  simp only [calculate_linear_trend, castRange_length]
  rw [if_neg (by omega)]
  rw [show List.replicate 10 (1 : ℚ) = List.replicate (castRange 10).length 1 from by
    rw [castRange_length]]
  rw [zipWith_mul_one, List.sum_replicate, castRange_length]
  rw [show (10 : ℕ) • (1 : ℚ) = ((10 : ℕ) : ℚ) from by simp]
  rw [show ((10 : ℕ) : ℚ) * (castRange 10).sum - (castRange 10).sum * ((10 : ℕ) : ℚ) = 0
    from by ring]
  rw [zero_div]

/-- The hourly drift rate of the constant series is zero. -/
theorem c1_rate : detect_drift_rate (List.replicate 10 (1 : ℚ)) = 0 := by
  rw [detect_drift_rate, if_pos (by simp), c1_slope]
  norm_num

/-- The linear-trend indicator does not fire on the constant series. -/
theorem c1_linear : (detect_indicators (List.replicate 10 (1 : ℚ))
    (0.003 / 30)).linear_trend = false := by
  show decide ((0.003 / 30 : ℚ) < |detect_drift_rate (List.replicate 10 (1 : ℚ))|) = false
  rw [decide_eq_false_iff_not, c1_rate]
  norm_num

/-- The CUSUM alarm does not fire on the constant series: every
standardised deviation is zero. -/
theorem c1_cusum : (calculate_cusum (List.replicate 10 (1 : ℚ))).alarm_triggered = false := by
  have hdev : List.map
      (fun x => (((x - mean ((List.replicate 10 (1 : ℚ)).take 10) : ℚ) : ℝ)) /
        cusum_divisor (List.replicate 10 (1 : ℚ))) (List.replicate 10 (1 : ℚ)) =
      List.replicate 10 (0 : ℝ) := by
    rw [List.map_replicate]
    rw [c1_take, c1_mean]
    norm_num
  rw [calculate_cusum]
  simp only [hdev]
  rw [show List.replicate 10 (0 : ℝ) = 0 :: List.replicate 9 0 from rfl]
  simp only [scanl_cusum_pos_zero 9, scanl_cusum_neg_zero 9]
  have hp1 : propToBool (∃ c ∈ List.replicate 10 (0 : ℝ), (4 : ℝ) < c) = false :=
    (propToBool_eq_false_iff _).mpr (by
      rintro ⟨c, hc, h4⟩
      rw [List.eq_of_mem_replicate hc] at h4
      norm_num at h4)
  have hp2 : propToBool (∃ c ∈ List.replicate 10 (0 : ℝ), c < (-4 : ℝ)) = false :=
    (propToBool_eq_false_iff _).mpr (by
      rintro ⟨c, hc, h4⟩
      rw [List.eq_of_mem_replicate hc] at h4
      norm_num at h4)
  rw [hp1, hp2]
  rfl

/-- The moving ranges of the constant series are all zero. -/
theorem c1_moving_ranges : moving_ranges (List.replicate 10 (1 : ℚ)) =
    List.replicate 9 0 := by
  rw [moving_ranges, show (List.replicate 10 (1 : ℚ)).tail = List.replicate 9 1 from rfl]
  rw [zipWith_abs_one 10 9, show (10 : ℕ) ⊓ 9 = 9 from by omega]

/-- The moving-range alarm does not fire on the constant series. -/
theorem c1_range : (calculate_moving_range_stats
    (moving_ranges (List.replicate 10 (1 : ℚ)))).out_of_control = false := by
  rw [c1_moving_ranges]
  have hmean9 : mean (List.replicate 9 (0 : ℚ)) = 0 := by
    rw [mean, List.sum_replicate]
    norm_num
  rw [calculate_moving_range_stats]
  simp only [hmean9]
  simp only [decide_eq_false_iff_not, not_lt, Nat.le_zero, List.length_eq_zero,
    List.map_eq_nil_iff]
  rw [List.filter_eq_nil_iff]
  intro p hp
  have hp2 := List.eq_of_mem_replicate (List.snd_mem_of_mem_enum hp)
  simp only [hp2]
  norm_num [max_self]

/-- Rule 2 fires on the constant series: ties at the mean are counted
as below the centre line, so the below-counter reaches nine. -/
theorem c1_rule2 : rule2_loop 1 (List.replicate 10 (1 : ℚ)) 0 0 = true := by
  decide

/-- The SPC alarm fires on the constant series, through Rule 2. -/
theorem c1_spc : (statistical_process_control
    (List.replicate 10 (1 : ℚ))).out_of_control = true := by
  rw [statistical_process_control]
  simp only [c1_mean, c1_rule2, Bool.or_true]

/-- The drift confidence of the constant series is exactly one quarter:
only the SPC indicator is true. -/
theorem c1_confidence : detect_confidence (List.replicate 10 (1 : ℚ)) (0.003 / 30) =
    1 / 4 := by
  rw [detect_confidence]
  rw [c1_linear]
  rw [show (detect_indicators (List.replicate 10 (1 : ℚ)) (0.003 / 30)).cusum_alarm =
    false from c1_cusum]
  rw [show (detect_indicators (List.replicate 10 (1 : ℚ)) (0.003 / 30)).range_alarm =
    false from c1_range]
  rw [show (detect_indicators (List.replicate 10 (1 : ℚ)) (0.003 / 30)).spc_alarm =
    true from c1_spc]
  norm_num

/-- C1 (code bug record): on the constant length-10 series with sensor
type `electrode` and electrode `Pt`, `detect_sensor_drift` reports
`drift_detected = False` as the claim says, but `drift_confidence` is
`1/4`, not `0`: the SPC run rule counts points equal to the mean as
below the centre line (the `else` branch of the loop, contradicting the
unused `below_center` mask and the Rule-2 comment), so nine ties trigger
`spc_alarm`. -/
theorem C1_constant_series_eval :
    ∃ a, detect_sensor_drift (List.replicate 10 (1 : ℚ)) "electrode" (some "Pt") =
        .analysis a ∧
      a.individual_indicators.linear_trend = false ∧
      a.individual_indicators.cusum_alarm = false ∧
      a.individual_indicators.range_alarm = false ∧
      a.individual_indicators.spc_alarm = true ∧
      a.drift_confidence = 1 / 4 ∧
      a.drift_detected = false := by
  have hthr : drift_threshold_of "electrode" (some "Pt") = some (0.003 / 30) := rfl
  have hdet : decide ((0.4 : ℚ) ≤ detect_confidence (List.replicate 10 (1 : ℚ))
      (0.003 / 30)) = false := by
    rw [decide_eq_false_iff_not, c1_confidence]
    norm_num
  rw [detect_sensor_drift, if_neg (by simp), hthr]
  exact ⟨_, rfl, c1_linear,
    show (detect_indicators (List.replicate 10 (1 : ℚ)) (0.003 / 30)).cusum_alarm =
      false from c1_cusum,
    show (detect_indicators (List.replicate 10 (1 : ℚ)) (0.003 / 30)).range_alarm =
      false from c1_range,
    show (detect_indicators (List.replicate 10 (1 : ℚ)) (0.003 / 30)).spc_alarm =
      true from c1_spc,
    c1_confidence, hdet⟩

end DriftCal
